import Mathlib

/-!
Verification of the scanning-orchestration core of the `info-leak-crawler`
repository against its natural-language specification.

The Python modules `scrapers/utils.py`, `scrapers/data_extractor.py` and
`scrapers/privacy_scanner.py` are shallowly embedded below.  Pure string and
list manipulation is translated directly; machine floats are idealised as
rationals (`ℚ`); Python `int()` truncation is `pyInt`; code that can raise an
exception is translated to `Except Unit`.  Regular-expression extraction
(`Utils.extract_email`, `Utils.extract_phone`, `re.findall` in
`_find_additional_pii`) and the BeautifulSoup text pipeline live in external
libraries; they are abstracted as oracle fields of the `Extractors` structure,
while every branch, threshold and arithmetic step of the repository's own code
is embedded concretely.
-/

/- Batteries marks rational arithmetic `irreducible`, which blocks `decide`
on the concrete score computations below; restore reducibility locally. -/
attribute [local semireducible] Rat.add Rat.mul Rat.sub Rat.inv Rat.ofScientific

set_option linter.unnecessarySeqFocus false

/-! ### Basic string machinery (Python `in`, `str.find`, `str.lower`, splits) -/

/-- Python whitespace class `\s` (the characters relevant to this code base). -/
def isPyWs (c : Char) : Bool :=
  c = ' ' || c = '\t' || c = '\n' || c = '\r' || c = '\x0b' || c = '\x0c'

/-- `listStartsWith l n` : `l` begins with `n` (used to model substring search). -/
def listStartsWith : List Char → List Char → Bool
  | _, [] => true
  | [], _ :: _ => false
  | x :: xs, y :: ys => x = y && listStartsWith xs ys

/-- First index at which `needle` occurs in `hay`; models Python `str.find`
(`some 0` for the empty needle, like Python). -/
def findSubIdx : List Char → List Char → Option Nat
  | hay, needle =>
    if listStartsWith hay needle then some 0
    else
      match hay with
      | [] => none
      | _ :: t => (findSubIdx t needle).map (· + 1)

/-- Python `needle in hay` on strings. -/
def strContainsSub (hay needle : String) : Bool :=
  (findSubIdx hay.toList needle.toList).isSome

/-- Python `str.lower` (ASCII fragment, which is all this code base exercises). -/
def pyLower (s : String) : String := String.mk (s.toList.map Char.toLower)

/-- One step of a right fold that splits on maximal runs of separator
characters, keeping boundary empties; the Bool records whether the character
to the right was a separator. -/
def splitSepStep (sep : Char → Bool) (c : Char) :
    Bool × List (List Char) → Bool × List (List Char)
  | (rightWasSep, acc) =>
    if sep c then
      (true, if rightWasSep then acc else [] :: acc)
    else
      (false, match acc with
        | t :: ts => (c :: t) :: ts
        | [] => [[c]])

/-- Split on maximal runs of characters satisfying `sep`, keeping the empty
boundary tokens that Python's `re.split` produces. -/
def splitSepBy (sep : Char → Bool) (s : String) : List String :=
  ((s.toList.foldr (splitSepStep sep) (false, [[]])).2).map String.mk

/-- Python `re.split(r'[,\s]+', address)` from `DataExtractor._find_matches`. -/
def reSplitAddr (s : String) : List String :=
  splitSepBy (fun c => c = ',' || isPyWs c) s

/-- Python `str.split()` (no argument): maximal non-whitespace runs, empties
dropped; used for `name.split()`. -/
def pySplitWs (s : String) : List String :=
  (splitSepBy isPyWs s).filter (· ≠ "")

/-- Digits of a string, modelling `re.sub(r'\D', '', s)` (phone normalisation). -/
def digitsOf (s : String) : String := s.toList.filter Char.isDigit |> String.mk

/-- Python `int()` applied to a rational: truncation toward zero. -/
def pyInt (q : ℚ) : ℤ := if 0 ≤ q then ⌊q⌋ else -⌊-q⌋

/-! ### `urllib.parse.urlparse` model (`Utils.clean_url`, `Utils.get_domain`)

Modelled for URLs free of embedded control characters, following CPython's
`urlsplit`/`_splitparams`: fragment split at the first `#`, scheme split at a
leading `letter(letter|digit|+|-|.)* :`, netloc after `//` up to `/` or `?`,
query after the first `?`, and `;params` split from the last path segment. -/

structure ParsedUrl where
  scheme : String
  netloc : String
  path : String
  params : String
  query : String
  fragment : String
deriving DecidableEq, Repr

/-- Split a character list at the first occurrence of `c`; the separator is
dropped.  When `c` does not occur the second component is empty. -/
def splitAtFirst (l : List Char) (c : Char) : List Char × List Char :=
  match l.span (· ≠ c) with
  | (before, []) => (before, [])
  | (before, _ :: t) => (before, t)

/-- Valid characters of a URL scheme after the leading letter. -/
def schemeCharOk (c : Char) : Bool :=
  c.isAlpha || c.isDigit || c = '+' || c = '-' || c = '.'

/-- Split `;params` off the last segment of a path (CPython `_splitparams`). -/
def splitParams (l : List Char) : List Char × List Char :=
  let segStart := (l.length - (l.reverse.takeWhile (· ≠ '/')).length)
  let seg := l.drop segStart
  match findSubIdx seg [';'] with
  | none => (l, [])
  | some i => (l.take (segStart + i), l.drop (segStart + i + 1))

/-- The `urlparse` model. -/
def urlparseM (url : String) : ParsedUrl :=
  let l0 := url.toList
  let (l1, frag) := splitAtFirst l0 '#'
  let (schemeChars, rest1) :=
    match l1.span (· ≠ ':') with
    | (before, _ :: t) =>
        match before with
        | c :: cs =>
          if c.isAlpha && cs.all schemeCharOk then (c :: cs, t) else ([], l1)
        | [] => ([], l1)
    | (_, []) => ([], l1)
  let (netlocChars, rest2) :=
    match rest1 with
    | '/' :: '/' :: t => (t.takeWhile (fun c => c ≠ '/' && c ≠ '?'),
                          t.dropWhile (fun c => c ≠ '/' && c ≠ '?'))
    | _ => ([], rest1)
  let (pathParams, queryChars) := splitAtFirst rest2 '?'
  let (pathChars, paramChars) := splitParams pathParams
  { scheme := pyLower (String.mk schemeChars)
    netloc := String.mk netlocChars
    path := String.mk pathChars
    params := String.mk paramChars
    query := String.mk queryChars
    fragment := String.mk frag }

/-! ### `scrapers/utils.py` -/

/-- The caller-supplied identity attributes (`user_info` dict).  A missing or
falsy attribute is the empty string, matching Python's `info.get(key)`
truthiness tests throughout the code base. -/
structure UserInfo where
  name : String := ""
  email : String := ""
  phone : String := ""
  address : String := ""
deriving DecidableEq, Repr

/-- `Utils.extract_context(text, keyword, context_size=50)`: a symmetric
window around the first (case-sensitive) occurrence of `keyword`. -/
def extract_context (text keyword : String) (contextSize : Nat := 50) : String :=
  match findSubIdx text.toList keyword.toList with
  | none => ""
  | some index =>
    let chars := text.toList
    let start := index - contextSize
    let stop := min chars.length (index + keyword.length + contextSize)
    let ctx := String.mk ((chars.drop start).take (stop - start))
    let ctx := if 0 < start then "..." ++ ctx else ctx
    if stop < chars.length then ctx ++ "..." else ctx

/-- Wrap a value in double quotes, as the query f-strings do. -/
def quoteV (s : String) : String := "\"" ++ s ++ "\""

/-- `Utils.generate_search_queries(info)`: the six conditional appends of the
source, in order; an attribute is "present" when its string is non-empty
(Python truthiness on `info.get(...)`). -/
def generate_search_queries (u : UserInfo) : List String :=
  (if u.name ≠ "" then [quoteV u.name] else []) ++
  (if u.name ≠ "" ∧ u.phone ≠ "" then [quoteV u.name ++ " " ++ quoteV u.phone] else []) ++
  (if u.name ≠ "" ∧ u.email ≠ "" then [quoteV u.name ++ " " ++ quoteV u.email] else []) ++
  (if u.name ≠ "" ∧ u.address ≠ "" then [quoteV u.name ++ " " ++ quoteV u.address] else []) ++
  (if u.email ≠ "" then [quoteV u.email] else []) ++
  (if u.phone ≠ "" ∧ u.email ≠ "" then [quoteV u.phone ++ " " ++ quoteV u.email] else [])

/-- `Utils.clean_url(url)`: empty for a falsy url, otherwise
`scheme://netloc+path` of the parse. -/
def clean_url (url : String) : String :=
  if url = "" then ""
  else
    let p := urlparseM url
    p.scheme ++ "://" ++ p.netloc ++ p.path

/-- `Utils.get_domain(url)`: the netloc of the parse. -/
def get_domain (url : String) : String := (urlparseM url).netloc

/-! ### Data model shared by `data_extractor.py` and `privacy_scanner.py` -/

/-- The `match_type` strings of the match records.  `partialT` stands for the
source string `'partial'`. -/
inductive MatchType where
  | exact
  | partialT
  | snippet
deriving DecidableEq, Repr

/-- One match record, as built by `_find_matches` / `_analyze_snippet`:
`{value, confidence, context, match_type}` plus the optional keys
`matched_parts` and `found_value` that some branches add. -/
structure MatchRecord where
  value : String
  confidence : ℚ
  context : String
  matchType : MatchType
  matchedParts : List String := []
  foundValue : Option String := none
deriving DecidableEq, Repr

/-- The `matches` dict keyed by `'name'/'email'/'phone'/'address'` and the
separate `'additional_pii'` entry (a map pii-category → examples). -/
structure Matches where
  name : Option MatchRecord := none
  email : Option MatchRecord := none
  phone : Option MatchRecord := none
  address : Option MatchRecord := none
  additionalPii : Option (List (String × List String)) := none
deriving DecidableEq, Repr

inductive RiskLevel where
  | low
  | medium
  | high
deriving DecidableEq, Repr

/-- The `risk_assessment` dict.  The full-content path fills
`risks/recommendations/domain`; the snippet path fills `basedOn`. -/
structure RiskAssessment where
  riskLevel : RiskLevel
  risks : List String := []
  recommendations : List String := []
  domain : String := ""
  basedOn : String := ""
deriving DecidableEq, Repr

/-- Oracles for the external libraries the embedded code calls: the
regex-based extractors of `utils.py` / `_find_additional_pii` (`re`) and the
BeautifulSoup text pipeline of `extract_personal_info`.  Every decision made
by the repository's own code is embedded concretely; only these library
primitives are abstract. -/
structure Extractors where
  emails : String → List String
  phones : String → List String
  addl : String → Option (List (String × List String))
  pageText : String → String

/-! ### `scrapers/data_extractor.py` -/

/-- The loop over `emails_found` in `_find_matches`: the first exact
(case-insensitive) equality breaks with a 1.0 exact record; a local-part
containment overwrites the accumulator with a 0.7 partial record and keeps
scanning. -/
def emailLoop (text : String) (userEmail : String) :
    List String → Option MatchRecord → Option MatchRecord
  | [], acc => acc
  | f :: fs, acc =>
    if pyLower f = pyLower userEmail then
      some { value := userEmail, confidence := 1, context := extract_context text f,
             matchType := .exact }
    else if strContainsSub (pyLower f)
        (String.mk ((pyLower userEmail).toList.takeWhile (· ≠ '@'))) then
      emailLoop text userEmail fs
        (some { value := userEmail, confidence := 7/10, context := extract_context text f,
                matchType := .partialT, foundValue := some f })
    else
      emailLoop text userEmail fs acc

/-- The loop over `phones_found` in `_find_matches`: first digit-for-digit
equality breaks with a 1.0 exact record; digit-string containment in either
direction overwrites with a 0.8 partial record and keeps scanning. -/
def phoneLoop (text : String) (userPhone : String) :
    List String → Option MatchRecord → Option MatchRecord
  | [], acc => acc
  | f :: fs, acc =>
    if digitsOf f = digitsOf userPhone then
      some { value := userPhone, confidence := 1, context := extract_context text f,
             matchType := .exact }
    else if strContainsSub (digitsOf f) (digitsOf userPhone)
        || strContainsSub (digitsOf userPhone) (digitsOf f) then
      phoneLoop text userPhone fs
        (some { value := userPhone, confidence := 4/5, context := extract_context text f,
                matchType := .partialT, foundValue := some f })
    else
      phoneLoop text userPhone fs acc

/-- The name section of `_find_matches`. -/
def nameMatch (text : String) (u : UserInfo) : Option MatchRecord :=
  if u.name ≠ "" then
    if strContainsSub (pyLower text) (pyLower u.name) then
      some { value := u.name, confidence := 1, context := extract_context text u.name,
             matchType := .exact }
    else
      let nameParts := pySplitWs u.name
      let partialMatches := nameParts.filter
        (fun p => p.length > 2 && strContainsSub (pyLower text) (pyLower p))
      if partialMatches ≠ [] then
        some { value := u.name,
               confidence := (partialMatches.length : ℚ) / (nameParts.length : ℚ),
               context := extract_context text (partialMatches.headD ""),
               matchType := .partialT, matchedParts := partialMatches }
      else none
  else none

/-- The address section of `_find_matches`.  Note the source guard is
`len(address_parts) >= 2` — the number of components of the *address*, not of
the components *found* — and the partial record's context indexes
`found_parts[0]`, which raises `IndexError` (modelled as `Except.error`) when
no component was found. -/
def addressMatch (text : String) (u : UserInfo) : Except Unit (Option MatchRecord) :=
  if u.address ≠ "" then
    if strContainsSub (pyLower text) (pyLower u.address) then
      .ok (some { value := u.address, confidence := 1,
                  context := extract_context text u.address, matchType := .exact })
    else
      let addressParts := reSplitAddr u.address
      let foundParts := addressParts.filter
        (fun p => p.length > 2 && strContainsSub (pyLower text) (pyLower p))
      if addressParts.length ≥ 2 then
        match foundParts with
        | [] => .error ()
        | f :: _ =>
          .ok (some { value := u.address,
                      confidence := (foundParts.length : ℚ) / (addressParts.length : ℚ),
                      context := extract_context text f, matchType := .partialT,
                      matchedParts := foundParts })
      else .ok none
  else .ok none

/-- `DataExtractor._find_matches(text, user_info)`.  The name/email/phone
sections cannot raise; the address section can (see `addressMatch`). -/
def find_matches (ex : Extractors) (text : String) (u : UserInfo) :
    Except Unit Matches :=
  (addressMatch text u).map fun addrOpt =>
    { name := nameMatch text u
      email := if u.email ≠ "" then emailLoop text u.email (ex.emails text) none else none
      phone := if u.phone ≠ "" then phoneLoop text u.phone (ex.phones text) none else none
      address := addrOpt
      additionalPii := ex.addl text }

/-- Confidence lookup performed by `_calculate_privacy_score`:
`match.get('confidence', 1.0)`; the `additional_pii` entry is a dict without
that key, so it contributes confidence 1.0. -/
def confOf : Option MatchRecord → ℚ
  | none => 0
  | some r => r.confidence

/-- `DataExtractor._calculate_privacy_score(matches, url)`: weighted sum of
confidences (name 20, email 30, phone 40, address 35, additional_pii 25),
then `×1.2` when the domain contains a social token, else `×1.5` when it
contains a data-dump token, then `min(100, int(score))`. -/
def calculate_privacy_score (m : Matches) (url : String) : ℤ :=
  let base : ℚ :=
    20 * confOf m.name + 30 * confOf m.email + 40 * confOf m.phone +
    35 * confOf m.address + (if m.additionalPii.isSome then 25 else 0)
  let domain := get_domain url
  let score : ℚ :=
    if ["facebook", "twitter", "linkedin", "instagram"].any
        (fun t => strContainsSub domain t) then base * (6/5)
    else if ["pastebin", "github", "breach"].any
        (fun t => strContainsSub domain t) then base * (3/2)
    else base
  min 100 (pyInt score)

/-- Number of matched attribute types excluding `additional_pii`
(`len([k for k in matches.keys() if k != 'additional_pii'])`). -/
def matchedTypes (m : Matches) : Nat :=
  (if m.name.isSome then 1 else 0) + (if m.email.isSome then 1 else 0) +
  (if m.phone.isSome then 1 else 0) + (if m.address.isSome then 1 else 0)

/-- `DataExtractor._assess_risk(matches, url)`: the tier comes from the count
of matched attribute types (≥3 high, ≥2 medium, else medium when email or
phone matched, else low); the risks/recommendations lists follow the fixed
rule table of the source. -/
def assess_risk (m : Matches) (url : String) : RiskAssessment :=
  let mt := matchedTypes m
  let riskLevel : RiskLevel :=
    if mt ≥ 3 then .high
    else if mt ≥ 2 then .medium
    else if m.email.isSome || m.phone.isSome then .medium
    else .low
  let risks :=
    (if m.email.isSome then ["Email address exposed - risk of spam and phishing"] else []) ++
    (if m.phone.isSome then ["Phone number exposed - risk of unwanted calls and SMS scams"] else []) ++
    (if m.address.isSome then ["Physical address exposed - risk to personal safety"] else []) ++
    (if m.name.isSome && m.email.isSome then ["Name and email combination - high risk of targeted attacks"] else []) ++
    (if m.additionalPii.isSome then ["Additional sensitive information detected"] else [])
  let recommendations :=
    (if m.email.isSome then ["Consider using a different email for public profiles"] else []) ++
    (if m.phone.isSome then ["Use a secondary phone number for online services"] else []) ++
    (if m.address.isSome then ["Avoid sharing full address online; use city/state only"] else []) ++
    (if m.name.isSome && m.email.isSome then ["Review and limit information shared on this platform"] else []) ++
    (if m.additionalPii.isSome then ["Review all information visible on this page"] else [])
  { riskLevel := riskLevel, risks := risks, recommendations := recommendations,
    domain := get_domain url }

/-- The dictionary returned by `DataExtractor.extract_personal_info` (minus
the ambient timestamp, threaded in by the orchestrator model as `now`). -/
structure ExtractedInfo where
  url : String
  matchedInfo : Matches
  privacyScore : ℤ
  riskAssessment : RiskAssessment
  extractedAt : String := ""
deriving Repr

/-- `DataExtractor.extract_personal_info(url, html_content, user_info)`:
BeautifulSoup text normalisation (oracle `pageText`), then `_find_matches`,
`_calculate_privacy_score`, `_assess_risk`.  Propagates the `IndexError` of
the address branch. -/
def extract_personal_info (ex : Extractors) (url html : String) (u : UserInfo)
    (now : String := "") : Except Unit ExtractedInfo :=
  let text := ex.pageText html
  (find_matches ex text u).map fun m =>
    { url := url, matchedInfo := m, privacyScore := calculate_privacy_score m url,
      riskAssessment := assess_risk m url, extractedAt := now }

/-! ### `scrapers/privacy_scanner.py` -/

/-- The modules imported at the top of `privacy_scanner.py` (lines 2-12).
Neither `re` nor `aiohttp` is among them, although `_analyze_snippet`
evaluates `re.sub` and `_fetch_with_retry` evaluates `aiohttp.ClientSession`:
both evaluations raise `NameError` at run time. -/
def privacyScannerImports : List String :=
  ["asyncio", "logging", "typing", "datetime", "collections",
   "scrapers.config", "scrapers.search_engines", "scrapers.social_media",
   "scrapers.data_extractor", "scrapers.utils"]

/-- Outcome of one fetch attempt inside `_fetch_with_retry`: a 200 response
with a body, a 404, another HTTP status, or a raised exception (network
errors — and, in this module as shipped, the `NameError` on `aiohttp`). -/
inductive Attempt where
  | ok (body : String)
  | notFound
  | status (code : Nat)
  | exn
deriving DecidableEq, Repr

/-- Instrumented result of `_fetch_with_retry`: the returned value (`body`),
the attempt indices that were executed, and the `asyncio.sleep` durations in
order. -/
structure FetchRes where
  body : Option String
  tried : List Nat
  sleeps : List Nat
deriving DecidableEq, Repr

/-- A failure that falls through to the backoff-and-retry arm (non-200,
non-404 status, or an exception). -/
def retryable : Attempt → Bool
  | .ok _ => false
  | .notFound => false
  | .status _ => true
  | .exn => true

/-- The `for attempt in range(max_retries)` loop of `_fetch_with_retry`,
driven by an oracle giving each attempt's outcome: 200 returns the body at
once, 404 returns `None` at once, anything else sleeps `2^attempt` seconds
when another attempt remains, and the loop falls through to `None`. -/
def fetchFrom (oracle : Nat → Attempt) (maxRetries : Nat) : List Nat → FetchRes
  | [] => { body := none, tried := [], sleeps := [] }
  | a :: rest =>
    match oracle a with
    | .ok b => { body := some b, tried := [a], sleeps := [] }
    | .notFound => { body := none, tried := [a], sleeps := [] }
    | _ =>
      let r := fetchFrom oracle maxRetries rest
      { body := r.body, tried := a :: r.tried,
        sleeps := (if a < maxRetries - 1 then [2 ^ a] else []) ++ r.sleeps }

/-- `PrivacyScanner._fetch_with_retry(url, max_retries=2)` over an attempt
oracle. -/
def fetch_with_retry (oracle : Nat → Attempt) (maxRetries : Nat := 2) : FetchRes :=
  fetchFrom oracle maxRetries (List.range maxRetries)

/-- The function as it actually runs in the shipped module: `aiohttp` is not
imported, so `aiohttp.ClientSession()` raises `NameError` on every attempt
before any network activity; the `except` arm catches it and the loop falls
through to `None`. -/
def fetch_with_retry_actual (_url : String) (maxRetries : Nat := 2) : FetchRes :=
  fetch_with_retry (fun _ => .exn) maxRetries

/-- One search hit (`{url, title, snippet, ...}` dict) as consumed by the
scanner; provider-specific extra keys play no role downstream. -/
structure Candidate where
  url : String := ""
  title : String := ""
  snippet : String := ""
deriving DecidableEq, Repr

/-- `PrivacyScanner._deduplicate_results`, with the `seen_urls` set made
explicit: a result is kept when its cleaned URL is non-empty and unseen. -/
def dedupAux (seen : List String) : List Candidate → List Candidate
  | [] => []
  | r :: rest =>
    let url := clean_url r.url
    if url ≠ "" ∧ url ∉ seen then
      r :: dedupAux (url :: seen) rest
    else
      dedupAux seen rest

/-- `PrivacyScanner._deduplicate_results(results)`. -/
def deduplicate_results (results : List Candidate) : List Candidate :=
  dedupAux [] results

/-- The dictionary returned by `_analyze_snippet`. -/
structure SnippetAnalysis where
  matchedInfo : Matches
  privacyScore : ℤ
  riskAssessment : RiskAssessment
deriving DecidableEq, Repr

/-- The computation written in `_analyze_snippet` (with `re` available):
matches against `title + " " + snippet` lower-cased, restricted to
name (0.8, +15), email (0.9, +25) and phone (0.9, +30), all with
`match_type='snippet'`; score capped at 70; coarse tier from the uncapped
sum. -/
def analyze_snippet_core (ex : Extractors) (r : Candidate) (u : UserInfo) :
    SnippetAnalysis :=
  let combined := pyLower (r.title ++ " " ++ r.snippet)
  let nameOpt : Option MatchRecord :=
    if u.name ≠ "" ∧ strContainsSub combined (pyLower u.name) then
      some { value := u.name, confidence := 4/5, context := r.snippet,
             matchType := .snippet }
    else none
  let emailOpt : Option MatchRecord :=
    if u.email ≠ "" ∧ (ex.emails combined).any (fun e => pyLower e = pyLower u.email) then
      some { value := u.email, confidence := 9/10, context := r.snippet,
             matchType := .snippet }
    else none
  let phoneOpt : Option MatchRecord :=
    if u.phone ≠ "" ∧ (ex.phones combined).any (fun p => digitsOf p = digitsOf u.phone) then
      some { value := u.phone, confidence := 9/10, context := r.snippet,
             matchType := .snippet }
    else none
  let score : ℤ :=
    (if nameOpt.isSome then 15 else 0) + (if emailOpt.isSome then 25 else 0) +
    (if phoneOpt.isSome then 30 else 0)
  { matchedInfo := { name := nameOpt, email := emailOpt, phone := phoneOpt }
    privacyScore := min score 70
    riskAssessment :=
      { riskLevel := if score < 20 then .low else if score < 40 then .medium else .high
        basedOn := "snippet_analysis" } }

/-- `_analyze_snippet` as it actually runs: when the profile has a non-empty
phone the line `re.sub(r'\D', '', user_info['phone'])` is evaluated and
raises `NameError` (`re` is not imported); otherwise that line is never
reached and the function returns the written result. -/
def analyze_snippet (ex : Extractors) (r : Candidate) (u : UserInfo) :
    Except Unit SnippetAnalysis :=
  if u.phone ≠ "" then .error ()
  else .ok (analyze_snippet_core ex r u)

/-- A `detailed_result`: the search-hit dict merged (`{**result, **extracted}`)
with the extraction outcome. -/
structure Detailed where
  url : String
  title : String
  snippet : String
  matchedInfo : Matches
  privacyScore : ℤ
  riskAssessment : RiskAssessment
deriving DecidableEq, Repr

/-- Merge used on the full-content path (the extracted dict's `url` key equals
the candidate's, so the overlay keeps every candidate field but replaces the
analysis keys). -/
def mergeFull (c : Candidate) (e : ExtractedInfo) : Detailed :=
  { url := e.url, title := c.title, snippet := c.snippet,
    matchedInfo := e.matchedInfo, privacyScore := e.privacyScore,
    riskAssessment := e.riskAssessment }

/-- Merge used on the snippet path (the snippet dict has no `url` key). -/
def mergeSnippet (c : Candidate) (a : SnippetAnalysis) : Detailed :=
  { url := c.url, title := c.title, snippet := c.snippet,
    matchedInfo := a.matchedInfo, privacyScore := a.privacyScore,
    riskAssessment := a.riskAssessment }

/-- Stable descending insertion on `privacy_score`; an element is placed
before the first strictly smaller score, so equal scores keep their original
order — the behaviour of Python's stable `list.sort(key=..., reverse=True)`. -/
def insertByScoreDesc (x : Detailed) : List Detailed → List Detailed
  | [] => [x]
  | y :: ys =>
    if y.privacyScore < x.privacyScore then x :: y :: ys
    else y :: insertByScoreDesc x ys

/-- `detailed_results.sort(key=lambda x: x.get('privacy_score', 0),
reverse=True)`. -/
def sortByScoreDesc (l : List Detailed) : List Detailed :=
  l.foldr insertByScoreDesc []

/-- Insertion-ordered counter, modelling a `defaultdict(int)` under Python's
dict insertion-order iteration. -/
def bumpCount (l : List (String × Nat)) (k : String) : List (String × Nat) :=
  match l with
  | [] => [(k, 1)]
  | (a, n) :: t => if a = k then (a, n + 1) :: t else (a, n) :: bumpCount t k

/-- Lookup in such a counter (`counter.get(key, 0)`). -/
def countOf (l : List (String × Nat)) (k : String) : Nat :=
  match l.find? (fun p => p.1 = k) with
  | some p => p.2
  | none => 0

/-- The matched attribute keys of one result in dict insertion order
(`name, email, phone, address`), excluding `additional_pii` — exactly the
keys the summary's exposed-information loop counts. -/
def matchedKeys (m : Matches) : List String :=
  (if m.name.isSome then ["name"] else []) ++
  (if m.email.isSome then ["email"] else []) ++
  (if m.phone.isSome then ["phone"] else []) ++
  (if m.address.isSome then ["address"] else [])

/-- Stable descending insertion on counts, for the top-domains ranking. -/
def insertByCountDesc (x : String × Nat) :
    List (String × Nat) → List (String × Nat)
  | [] => [x]
  | y :: ys => if y.2 < x.2 then x :: y :: ys else y :: insertByCountDesc x ys

/-- `sorted(items, key=lambda x: x[1], reverse=True)` — stable. -/
def sortByCountDesc (l : List (String × Nat)) : List (String × Nat) :=
  l.foldr insertByCountDesc []

/-- The summary dict of `_generate_summary`. -/
structure Summary where
  totalExposures : Nat
  highCount : Nat
  mediumCount : Nat
  lowCount : Nat
  exposedInformation : List (String × Nat)
  topDomains : List (String × Nat)
  recommendations : List String
  overallRiskLevel : RiskLevel
deriving DecidableEq, Repr

/-- `PrivacyScanner._generate_summary(results, user_info)`.  The `user_info`
argument is accepted and unused, as in the source. -/
def generate_summary (results : List Detailed) (_u : UserInfo) : Summary :=
  let tier := fun (d : Detailed) => d.riskAssessment.riskLevel
  let highCount := results.countP (fun d => tier d = .high)
  let mediumCount := results.countP (fun d => tier d = .medium)
  let lowCount := results.countP (fun d => tier d ≠ .high ∧ tier d ≠ .medium)
  let exposed := results.foldl
    (fun acc d => (matchedKeys d.matchedInfo).foldl bumpCount acc) []
  let domains := results.foldl
    (fun acc d => let dom := get_domain d.url
                  if dom ≠ "" then bumpCount acc dom else acc) []
  let overall : RiskLevel :=
    if highCount ≥ 3 then .high
    else if highCount ≥ 1 ∨ mediumCount ≥ 3 then .medium
    else .low
  let recommendations :=
    (if countOf exposed "email" > 2 then
      ["Your email appears on multiple sites. Consider using different emails for different purposes."]
     else []) ++
    (if countOf exposed "phone" > 0 then
      ["Your phone number is publicly visible. Consider using a secondary number for online services."]
     else []) ++
    (if countOf exposed "address" > 0 then
      ["Your physical address is exposed online. Review privacy settings on platforms where you've shared it."]
     else []) ++
    (if overall = .high then
      ["HIGH RISK: Your personal information is widely exposed. Take immediate action to review and remove sensitive data."]
     else [])
  { totalExposures := results.length
    highCount := highCount, mediumCount := mediumCount, lowCount := lowCount
    exposedInformation := exposed
    topDomains := (sortByCountDesc domains).take 10
    recommendations := recommendations
    overallRiskLevel := overall }

/-- Environment of one scan: the aggregated per-query search-engine results
and social-media results (both aggregators isolate provider failures with
`asyncio.gather(..., return_exceptions=True)`, so they are total), the
library oracles, and the ambient clock/hash effects.  The per-instance
`results_cache` is semantically transparent within one scan because the
oracles are pure functions of the query. -/
structure Env where
  searchAll : String → List Candidate
  socialAll : String → List Candidate
  socialOn : Bool := true
  ex : Extractors
  hashC : UserInfo → String → String := fun _ _ => ""
  startTime : String := ""
  elapsed : ℚ := 0

/-- The returned scan-report dict. -/
structure Report where
  scanId : String
  userInfo : UserInfo
  scanTime : ℚ
  totalResultsFound : Nat
  detailedResults : List Detailed
  summary : Summary
  scanDate : String
  maxDetailedOption : Nat

/-- Per-candidate processing of `scan` (the body of the `try` block): fetch
the page — which, in the shipped module, always yields `None` — then either
the full extraction path or the snippet fallback; a raised error is caught by
the handler and the candidate is dropped (`none`). -/
def candidateStep (env : Env) (u : UserInfo) (c : Candidate) : Option Detailed :=
  match (fetch_with_retry_actual c.url 2).body with
  | some html =>
    match extract_personal_info env.ex c.url html u env.startTime with
    | .ok e => some (mergeFull c e)
    | .error _ => none
  | none =>
    match analyze_snippet env.ex c u with
    | .ok a => some (mergeSnippet c a)
    | .error _ => none

/-- All raw results gathered by `scan` before deduplication: every query sent
to the engine aggregator, then the first two queries sent to the social
aggregator when social platforms are selected. -/
def gatherResults (env : Env) (u : UserInfo) : List Candidate :=
  let queries := generate_search_queries u
  ((queries.map env.searchAll).flatten) ++
  (if env.socialOn then ((queries.take 2).map env.socialAll).flatten else [])

/-- `PrivacyScanner.scan(user_info, options)`: queries, search, dedup,
truncation to `max_detailed_results`, per-candidate processing with dropped
failures, stable sort by descending privacy score, summary, report.  The
function performs no validation of the profile. -/
def scanModel (env : Env) (u : UserInfo) (maxDetailed : Nat) : Report :=
  let uniqueResults := deduplicate_results (gatherResults env u)
  let detailed := (uniqueResults.take maxDetailed).filterMap (candidateStep env u)
  let sorted := sortByScoreDesc detailed
  { scanId := env.hashC u env.startTime
    userInfo := u
    scanTime := env.elapsed
    totalResultsFound := uniqueResults.length
    detailedResults := sorted
    summary := generate_summary sorted u
    scanDate := env.startTime
    maxDetailedOption := maxDetailed }

/-! ### Definitions taken from the specification's words (for refinement
comparisons) -/

/-- Query plan as §4.1 of the specification words it: emit, in the fixed
precedence order `[name], [name+phone], [name+email], [name+address],
[email], [phone+email]`, exactly the combinations whose referenced attributes
are all present and non-empty, with each value quoted. -/
def plannerSpec (u : UserInfo) : List String :=
  [([u.name], u.name != ""),
   ([u.name, u.phone], u.name != "" && u.phone != ""),
   ([u.name, u.email], u.name != "" && u.email != ""),
   ([u.name, u.address], u.name != "" && u.address != ""),
   ([u.email], u.email != ""),
   ([u.phone, u.email], u.phone != "" && u.email != "")].foldr
    (fun combo acc =>
      if combo.2 then (" ".intercalate (combo.1.map quoteV)) :: acc else acc) []

/-- Privacy score as §4.5 of the specification words it:
`Σ(baseWeight × confidence)` over matched attributes with weights name 20,
email 30, phone 40, address 35, additionalPii 25; host containing a
social-platform token → ×1.2, host containing a breach/dump token → ×1.5;
clamp to [0,100], truncate to integer. -/
def privacyScoreSpec (m : Matches) (url : String) : ℤ :=
  let weighted : ℚ :=
    20 * confOf m.name + 30 * confOf m.email + 40 * confOf m.phone +
    35 * confOf m.address + (if m.additionalPii.isSome then 25 else 0)
  let host := get_domain url
  let multiplied : ℚ :=
    if ["facebook", "twitter", "linkedin", "instagram"].any
        (fun t => strContainsSub host t) then weighted * (6/5)
    else if ["pastebin", "github", "breach"].any
        (fun t => strContainsSub host t) then weighted * (3/2)
    else weighted
  max 0 (min 100 (pyInt multiplied))

/-- Overall risk tier as the claim über §4.6 words it, parameterised by the
threshold `T ∈ {1, 3}`: high iff the high-tier count reaches `T`, else medium
iff the medium-tier count exceeds 2, else low. -/
def claimTier (t highCount mediumCount : Nat) : RiskLevel :=
  if highCount ≥ t then .high
  else if mediumCount > 2 then .medium
  else .low

/-! ### Concrete fixtures used by counterexamples and witnesses -/

/-- Trivial oracle set: no extracted e-mails/phones, no additional PII, and a
text pipeline that returns the document unchanged. -/
def ex0 : Extractors :=
  { emails := fun _ => [], phones := fun _ => [], addl := fun _ => none,
    pageText := fun s => s }

/-- Trivial environment: both aggregators return no results. -/
def env0 : Env :=
  { searchAll := fun _ => [], socialAll := fun _ => [], ex := ex0 }

/-- The all-empty identity profile. -/
def emptyUser : UserInfo := {}

/-- A profile holding only an e-mail. -/
def emailOnlyMatches : Matches :=
  { email := some { value := "e@x.com", confidence := 1, context := "",
                    matchType := .exact } }

/-- A detailed result whose assessment is high-tier. -/
def highDetailed : Detailed :=
  { url := "", title := "", snippet := "", matchedInfo := {},
    privacyScore := 80, riskAssessment := { riskLevel := .high } }

/-- A detailed result whose assessment is medium-tier. -/
def mediumDetailed : Detailed :=
  { url := "", title := "", snippet := "", matchedInfo := {},
    privacyScore := 50, riskAssessment := { riskLevel := .medium } }

/-! ### Helper lemmas -/

theorem assess_risk_riskLevel (m : Matches) (url : String) :
    (assess_risk m url).riskLevel =
      (if matchedTypes m ≥ 3 then .high
       else if matchedTypes m ≥ 2 then .medium
       else if m.email.isSome || m.phone.isSome then .medium
       else .low) := rfl

theorem summary_overall (results : List Detailed) (u : UserInfo) :
    (generate_summary results u).overallRiskLevel =
      (if (generate_summary results u).highCount ≥ 3 then .high
       else if (generate_summary results u).highCount ≥ 1 ∨
               (generate_summary results u).mediumCount ≥ 3 then .medium
       else .low) := rfl

/-! ### Claim C2 -/

/-- C2 counterexample: a result matching only the user's e-mail (exact,
confidence 1.0) on a neutral domain has privacy score 30 — below the claimed
medium threshold of 40 — yet `_assess_risk` records the `'medium'` tier,
because the tier is computed from match counts, not from the score. -/
theorem C2_counterexample :
    (assess_risk emailOnlyMatches "http://example.com/p").riskLevel = .medium ∧
    calculate_privacy_score emailOnlyMatches "http://example.com/p" = 30 ∧
    ¬ (40 ≤ calculate_privacy_score emailOnlyMatches "http://example.com/p") := by
  refine ⟨rfl, by decide, by decide⟩

/-- C2 amended: the risk tier of a full-content result is derived from the
number of matched attribute types (excluding `additional_pii`): `'high'` iff
at least 3 types matched; `'medium'` iff fewer than 3 matched but either at
least 2 matched or an email/phone match is present; `'low'` otherwise.  The
tier is independent of the URL (hence of the numeric privacy score). -/
theorem C2_amended_tier_from_counts (m : Matches) (url url' : String) :
    ((assess_risk m url).riskLevel = .high ↔ 3 ≤ matchedTypes m) ∧
    ((assess_risk m url).riskLevel = .medium ↔
      matchedTypes m < 3 ∧
        (2 ≤ matchedTypes m ∨ m.email.isSome = true ∨ m.phone.isSome = true)) ∧
    ((assess_risk m url).riskLevel = .low ↔
      matchedTypes m < 2 ∧ m.email.isSome = false ∧ m.phone.isSome = false) ∧
    (assess_risk m url).riskLevel = (assess_risk m url').riskLevel := by
  rw [assess_risk_riskLevel, assess_risk_riskLevel]
  rcases he : m.email with _ | e <;> rcases hp : m.phone with _ | p <;>
    refine ⟨?_, ?_, ?_, rfl⟩ <;>
      split_ifs with h1 h2 h3 <;> simp_all <;> omega

/-! ### Claim C9 -/

/-- C9 counterexample: a single high-tier result yields overall tier
`'medium'` from `_generate_summary` (high count 1, medium count 0), whereas
the claimed rule gives `'high'` under threshold T = 1 and `'low'` under
threshold T = 3 — so neither documented policy matches the code. -/
theorem C9_counterexample :
    (generate_summary [highDetailed] emptyUser).overallRiskLevel = .medium ∧
    (generate_summary [highDetailed] emptyUser).highCount = 1 ∧
    (generate_summary [highDetailed] emptyUser).mediumCount = 0 ∧
    claimTier 1 1 0 = .high ∧ claimTier 3 1 0 = .low := by
  refine ⟨rfl, by decide, by decide, by decide, by decide⟩

/-- C9 amended: the summary's overall tier is `'high'` iff at least 3
high-tier results were counted; `'medium'` iff fewer than 3 high-tier results
but at least 1 high-tier or at least 3 medium-tier; `'low'` otherwise (no
high-tier result and fewer than 3 medium-tier).  In particular 3 high-tier
plus 1 medium-tier results yield `'high'`. -/
theorem C9_amended_overall_tier (results : List Detailed) (u : UserInfo) :
    ((generate_summary results u).overallRiskLevel = .high ↔
      3 ≤ (generate_summary results u).highCount) ∧
    ((generate_summary results u).overallRiskLevel = .medium ↔
      (generate_summary results u).highCount < 3 ∧
        (1 ≤ (generate_summary results u).highCount ∨
         3 ≤ (generate_summary results u).mediumCount)) ∧
    ((generate_summary results u).overallRiskLevel = .low ↔
      (generate_summary results u).highCount = 0 ∧
        (generate_summary results u).mediumCount < 3) ∧
    (generate_summary [highDetailed, highDetailed, highDetailed, mediumDetailed]
        emptyUser).overallRiskLevel = .high := by
  rw [summary_overall]
  refine ⟨?_, ?_, ?_, rfl⟩ <;>
    split_ifs with h1 h2 <;> simp_all <;> omega

/-! ### Claim C8 -/

theorem fetchFrom_nil (oracle : Nat → Attempt) (mx : Nat) :
    fetchFrom oracle mx [] = { body := none, tried := [], sleeps := [] } := rfl

theorem fetchFrom_ok (oracle : Nat → Attempt) (mx a : Nat) (rest : List Nat)
    (b : String) (h : oracle a = .ok b) :
    fetchFrom oracle mx (a :: rest) =
      { body := some b, tried := [a], sleeps := [] } := by
  simp [fetchFrom, h]

theorem fetchFrom_notFound (oracle : Nat → Attempt) (mx a : Nat)
    (rest : List Nat) (h : oracle a = .notFound) :
    fetchFrom oracle mx (a :: rest) =
      { body := none, tried := [a], sleeps := [] } := by
  simp [fetchFrom, h]

theorem fetchFrom_retry (oracle : Nat → Attempt) (mx a : Nat) (rest : List Nat)
    (h : retryable (oracle a) = true) :
    fetchFrom oracle mx (a :: rest) =
      { body := (fetchFrom oracle mx rest).body,
        tried := a :: (fetchFrom oracle mx rest).tried,
        sleeps := (if a < mx - 1 then [2 ^ a] else []) ++
          (fetchFrom oracle mx rest).sleeps } := by
  rcases h0 : oracle a with b | _ | c | _ <;> rw [h0] at h <;>
    simp [retryable] at h <;> simp [fetchFrom, h0]

/-- C8 counterexample: a 404 on the first attempt returns immediately
(`tried = [0]`, no sleep) but the returned value is `None` — exactly the same
value produced after exhausting all retries on persistent failures — so the
"not found" outcome is not distinct from the "unavailable" outcome. -/
theorem C8_counterexample :
    (fetch_with_retry (fun _ => .notFound) 2).tried = [0] ∧
    (fetch_with_retry (fun _ => .notFound) 2).sleeps = [] ∧
    (fetch_with_retry (fun _ => .notFound) 2).body =
      (fetch_with_retry (fun _ => .exn) 2).body := by
  refine ⟨rfl, rfl, rfl⟩

/-- C8 amended: with `max_retries = 2`, a 200-equivalent first attempt
returns the body at once; a 404-equivalent first attempt returns at once,
without retry or backoff, but its value is `None` — indistinguishable from
the exhausted-retries "unavailable" value; any other failure on the first
attempt sleeps `2^0` seconds and retries once, after which a success returns
the body and any failure or 404 ends with `None`. -/
theorem C8_amended_fetch (oracle : Nat → Attempt) :
    (∀ b, oracle 0 = .ok b →
      fetch_with_retry oracle 2 = { body := some b, tried := [0], sleeps := [] }) ∧
    (oracle 0 = .notFound →
      fetch_with_retry oracle 2 = { body := none, tried := [0], sleeps := [] }) ∧
    (retryable (oracle 0) = true →
      (fetch_with_retry oracle 2).tried = [0, 1] ∧
      (fetch_with_retry oracle 2).sleeps = [2 ^ 0] ∧
      (∀ b, oracle 1 = .ok b → (fetch_with_retry oracle 2).body = some b) ∧
      (oracle 1 = .notFound ∨ retryable (oracle 1) = true →
        (fetch_with_retry oracle 2).body = none)) := by
  have hr : List.range 2 = [0, 1] := rfl
  refine ⟨?_, ?_, ?_⟩
  · intro b h
    rw [fetch_with_retry, hr, fetchFrom_ok oracle 2 0 [1] b h]
  · intro h
    rw [fetch_with_retry, hr, fetchFrom_notFound oracle 2 0 [1] h]
  · intro h
    rw [fetch_with_retry, hr, fetchFrom_retry oracle 2 0 [1] h]
    refine ⟨?_, ?_, ?_, ?_⟩
    · rcases h1 : oracle 1 with b | _ | c | _
      · simp [fetchFrom_ok oracle 2 1 [] b h1]
      · simp [fetchFrom_notFound oracle 2 1 [] h1]
      · simp [fetchFrom_retry oracle 2 1 [] (by simp [retryable, h1]), fetchFrom_nil]
      · simp [fetchFrom_retry oracle 2 1 [] (by simp [retryable, h1]), fetchFrom_nil]
    · rcases h1 : oracle 1 with b | _ | c | _
      · simp [fetchFrom_ok oracle 2 1 [] b h1]
      · simp [fetchFrom_notFound oracle 2 1 [] h1]
      · simp [fetchFrom_retry oracle 2 1 [] (by simp [retryable, h1]), fetchFrom_nil]
      · simp [fetchFrom_retry oracle 2 1 [] (by simp [retryable, h1]), fetchFrom_nil]
    · intro b h1
      simp [fetchFrom_ok oracle 2 1 [] b h1]
    · rintro (h1 | h1)
      · simp [fetchFrom_notFound oracle 2 1 [] h1]
      · simp [fetchFrom_retry oracle 2 1 [] h1, fetchFrom_nil]

/-- C8 witness: persistent failures exhaust both attempts, sleeping once for
`2^0` seconds, and end in the "unavailable" value `None`. -/
theorem C8_witness :
    (fetch_with_retry (fun _ => .exn) 2).tried = [0, 1] ∧
    (fetch_with_retry (fun _ => .exn) 2).sleeps = [2 ^ 0] ∧
    (fetch_with_retry (fun _ => .exn) 2).body = none := by
  obtain ⟨h1, h2, _, h4⟩ := (C8_amended_fetch (fun _ => .exn)).2.2 rfl
  exact ⟨h1, h2, h4 (Or.inr rfl)⟩

/-! ### Claim C7 -/

theorem intercalate_singleton (a : String) : " ".intercalate [a] = a := rfl

theorem intercalate_pair (a b : String) :
    " ".intercalate [a, b] = a ++ " " ++ b := rfl

/-- C7 counterexample: the planner performs no deduplication, so a profile
whose name and e-mail hold the same string emits the query `"a"` twice. -/
theorem C7_counterexample :
    ¬ (generate_search_queries { name := "a", email := "a" }).Nodup := by
  decide

/-- C7 amended: the planner emits exactly the combinations whose referenced
attributes are present and non-empty, in the fixed precedence order
`[name], [name+phone], [name+email], [name+address], [email], [phone+email]`,
each value quoted (this is `plannerSpec`, the specification's own wording);
a profile with a name or an e-mail yields at least one query, and a profile
with neither (in particular phone-only or address-only) yields none.  The
emitted list may contain duplicates when distinct attributes hold equal
values; no deduplication is performed. -/
theorem C7_amended_planner (u : UserInfo) :
    generate_search_queries u = plannerSpec u ∧
    (u.name ≠ "" ∨ u.email ≠ "" → generate_search_queries u ≠ []) ∧
    (u.name = "" → u.email = "" → generate_search_queries u = []) := by
  refine ⟨?_, ?_, ?_⟩
  · by_cases hn : u.name = "" <;> by_cases he : u.email = "" <;>
      by_cases hp : u.phone = "" <;> by_cases ha : u.address = "" <;>
        simp [generate_search_queries, plannerSpec, hn, he, hp, ha, quoteV,
          intercalate_singleton, intercalate_pair]
  · rintro (hn | he) <;>
      by_cases hn' : u.name = "" <;>
        simp_all [generate_search_queries, quoteV]
  · intro hn he
    simp [generate_search_queries, hn, he]

/-- C7 witness: a name-and-email profile with distinct values emits the three
queries of the precedence table, equal to the specification's plan. -/
theorem C7_witness :
    generate_search_queries { name := "jo do", email := "j@x.io" } =
      plannerSpec { name := "jo do", email := "j@x.io" } ∧
    ({ name := "jo do", email := "j@x.io" } : UserInfo).name ≠ "" ∧
    generate_search_queries { name := "jo do", email := "j@x.io" } ≠ [] ∧
    generate_search_queries { phone := "123" } = [] := by
  refine ⟨(C7_amended_planner _).1, by decide, ?_, ?_⟩
  · exact (C7_amended_planner _).2.1 (Or.inl (by decide))
  · exact (C7_amended_planner { phone := "123" }).2.2 rfl rfl

/-! ### Claim C3 -/

/-- The weighted confidence sum inside `_calculate_privacy_score`. -/
def baseScore (m : Matches) : ℚ :=
  20 * confOf m.name + 30 * confOf m.email + 40 * confOf m.phone +
  35 * confOf m.address + (if m.additionalPii.isSome then 25 else 0)

/-- The domain multiplier of `_calculate_privacy_score` (`elif` chain: social
tokens win over data-dump tokens, else 1). -/
def domainMult (url : String) : ℚ :=
  if ["facebook", "twitter", "linkedin", "instagram"].any
      (fun t => strContainsSub (get_domain url) t) then 6/5
  else if ["pastebin", "github", "breach"].any
      (fun t => strContainsSub (get_domain url) t) then 3/2
  else 1

theorem calculate_privacy_score_eq (m : Matches) (url : String) :
    calculate_privacy_score m url = min 100 (pyInt (baseScore m * domainMult url)) := by
  unfold calculate_privacy_score baseScore domainMult
  dsimp only
  split_ifs <;> first | rfl | rw [mul_one]

theorem privacyScoreSpec_eq (m : Matches) (url : String) :
    privacyScoreSpec m url =
      max 0 (min 100 (pyInt (baseScore m * domainMult url))) := by
  unfold privacyScoreSpec baseScore domainMult
  dsimp only
  split_ifs <;> first | rfl | rw [mul_one]

theorem pyInt_nonneg (q : ℚ) (h : 0 ≤ q) : 0 ≤ pyInt q := by
  simp only [pyInt, if_pos h]
  exact Int.floor_nonneg.mpr h

theorem pyInt_mono {a b : ℚ} (h : a ≤ b) : pyInt a ≤ pyInt b := by
  unfold pyInt
  split_ifs with h1 h2 h3
  · exact Int.floor_le_floor h
  · exact absurd (le_trans h1 h) h2
  · have hfa : (0 : ℤ) ≤ ⌊-a⌋ := Int.floor_nonneg.mpr (by linarith)
    have hfb : (0 : ℤ) ≤ ⌊b⌋ := Int.floor_nonneg.mpr h3
    omega
  · have : ⌊-b⌋ ≤ ⌊-a⌋ := Int.floor_le_floor (by linarith)
    omega

theorem domainMult_nonneg (url : String) : 0 ≤ domainMult url := by
  unfold domainMult
  split_ifs <;> norm_num

theorem baseScore_nonneg (m : Matches)
    (h : 0 ≤ confOf m.name ∧ 0 ≤ confOf m.email ∧ 0 ≤ confOf m.phone ∧
         0 ≤ confOf m.address) : 0 ≤ baseScore m := by
  obtain ⟨h1, h2, h3, h4⟩ := h
  unfold baseScore
  have h5 : (0 : ℚ) ≤ if m.additionalPii.isSome then 25 else 0 := by
    split_ifs <;> norm_num
  positivity

theorem score_mono_of_base (m m' : Matches) (url : String)
    (hb : baseScore m ≤ baseScore m') :
    calculate_privacy_score m url ≤ calculate_privacy_score m' url := by
  rw [calculate_privacy_score_eq, calculate_privacy_score_eq]
  exact min_le_min le_rfl
    (pyInt_mono (mul_le_mul_of_nonneg_right hb (domainMult_nonneg url)))

/-- C3: the privacy score equals the specification's formula (weights 20 /
30 / 40 / 35 / 25, domain multiplier ×1.2 for social hosts else ×1.5 for
dump hosts, truncated and clamped); it always lies in [0, 100]; and adding an
exact (confidence 1.0) match for a previously unmatched attribute — or an
`additional_pii` finding — never decreases it. -/
theorem C3_privacy_score (m : Matches) (url : String)
    (h : 0 ≤ confOf m.name ∧ 0 ≤ confOf m.email ∧ 0 ≤ confOf m.phone ∧
         0 ≤ confOf m.address) :
    calculate_privacy_score m url = privacyScoreSpec m url ∧
    0 ≤ calculate_privacy_score m url ∧
    calculate_privacy_score m url ≤ 100 ∧
    (m.name = none → ∀ v ctx, calculate_privacy_score m url ≤
      calculate_privacy_score
        { m with name := some ⟨v, 1, ctx, .exact, [], none⟩ } url) ∧
    (m.email = none → ∀ v ctx, calculate_privacy_score m url ≤
      calculate_privacy_score
        { m with email := some ⟨v, 1, ctx, .exact, [], none⟩ } url) ∧
    (m.phone = none → ∀ v ctx, calculate_privacy_score m url ≤
      calculate_privacy_score
        { m with phone := some ⟨v, 1, ctx, .exact, [], none⟩ } url) ∧
    (m.address = none → ∀ v ctx, calculate_privacy_score m url ≤
      calculate_privacy_score
        { m with address := some ⟨v, 1, ctx, .exact, [], none⟩ } url) ∧
    (m.additionalPii = none → ∀ pii, calculate_privacy_score m url ≤
      calculate_privacy_score { m with additionalPii := some pii } url) := by
  have hnn : 0 ≤ baseScore m * domainMult url :=
    mul_nonneg (baseScore_nonneg m h) (domainMult_nonneg url)
  have hclamped : 0 ≤ min 100 (pyInt (baseScore m * domainMult url)) :=
    le_min (by norm_num) (pyInt_nonneg _ hnn)
  refine ⟨?_, ?_, ?_, ?_, ?_, ?_, ?_, ?_⟩
  · rw [calculate_privacy_score_eq, privacyScoreSpec_eq, max_eq_right hclamped]
  · rw [calculate_privacy_score_eq]; exact hclamped
  · rw [calculate_privacy_score_eq]; exact min_le_left _ _
  · intro hm v ctx
    refine score_mono_of_base _ _ _ ?_
    simp [baseScore, confOf, hm]
  · intro hm v ctx
    refine score_mono_of_base _ _ _ ?_
    simp [baseScore, confOf, hm]
  · intro hm v ctx
    refine score_mono_of_base _ _ _ ?_
    simp [baseScore, confOf, hm]
  · intro hm v ctx
    refine score_mono_of_base _ _ _ ?_
    simp [baseScore, confOf, hm]
  · intro hm pii
    refine score_mono_of_base _ _ _ ?_
    simp [baseScore, confOf, hm]

/-- C3 witness: an exact e-mail-only match on a neutral host scores 30, in
agreement with the specification's formula, and within bounds. -/
theorem C3_witness :
    calculate_privacy_score emailOnlyMatches "http://example.com/p" =
      privacyScoreSpec emailOnlyMatches "http://example.com/p" ∧
    0 ≤ calculate_privacy_score emailOnlyMatches "http://example.com/p" ∧
    calculate_privacy_score emailOnlyMatches "http://example.com/p" ≤ 100 := by
  have h := C3_privacy_score emailOnlyMatches "http://example.com/p"
    ⟨by decide, by decide, by decide, by decide⟩
  exact ⟨h.1, h.2.1, h.2.2.1⟩

/-! ### Claim C4 -/

/-- C4: the snippet fallback computes its matches from `title + " " + snippet`
alone (the result is unchanged under any candidate with the same title and
snippet), restricts them to name/email/phone (never address or
additional PII), emits only `matchType = 'snippet'` records with the fixed
confidences name 0.8, email 0.9 and phone 0.9 (one consistent value inside
[0.85, 0.9]), and caps the resulting privacy score at 70. -/
theorem C4_snippet_fallback (ex : Extractors) (r : Candidate) (u : UserInfo) :
    (analyze_snippet_core ex r u).matchedInfo.address = none ∧
    (analyze_snippet_core ex r u).matchedInfo.additionalPii = none ∧
    (∀ mr, (analyze_snippet_core ex r u).matchedInfo.name = some mr →
      mr.confidence = 4/5 ∧ mr.matchType = .snippet) ∧
    (∀ mr, (analyze_snippet_core ex r u).matchedInfo.email = some mr →
      mr.confidence = 9/10 ∧ mr.matchType = .snippet) ∧
    (∀ mr, (analyze_snippet_core ex r u).matchedInfo.phone = some mr →
      mr.confidence = 9/10 ∧ 17/20 ≤ mr.confidence ∧ mr.confidence ≤ 9/10 ∧
      mr.matchType = .snippet) ∧
    (analyze_snippet_core ex r u).privacyScore ≤ 70 ∧
    0 ≤ (analyze_snippet_core ex r u).privacyScore ∧
    (∀ r' : Candidate, r.title = r'.title → r.snippet = r'.snippet →
      analyze_snippet_core ex r' u = analyze_snippet_core ex r u) := by
  refine ⟨rfl, rfl, ?_, ?_, ?_, ?_, ?_, ?_⟩
  · intro mr h
    dsimp only [analyze_snippet_core] at h
    split_ifs at h with hc
    cases h; exact ⟨rfl, rfl⟩
  · intro mr h
    dsimp only [analyze_snippet_core] at h
    split_ifs at h with hc
    cases h; exact ⟨rfl, rfl⟩
  · intro mr h
    dsimp only [analyze_snippet_core] at h
    split_ifs at h with hc
    cases h; refine ⟨rfl, by norm_num, by norm_num, rfl⟩
  · show min _ 70 ≤ 70
    exact min_le_right _ _
  · show (0 : ℤ) ≤ min _ 70
    refine le_min ?_ (by norm_num)
    dsimp only
    split_ifs <;> norm_num
  · intro r' h1 h2
    dsimp only [analyze_snippet_core]
    rw [h1, h2]

/-- C4 witness: on a concrete fetch-failed candidate whose title contains the
user's name, the fallback emits a name record with confidence 0.8 and
`matchType = 'snippet'`, and the score stays at most 70. -/
theorem C4_witness :
    (analyze_snippet_core ex0 { title := "Bob", snippet := "x" }
        { name := "bob" }).matchedInfo.name =
      some { value := "bob", confidence := 4/5, context := "x",
             matchType := .snippet } ∧
    ({ value := "bob", confidence := 4/5, context := "x",
       matchType := MatchType.snippet } : MatchRecord).confidence = 4/5 ∧
    ({ value := "bob", confidence := 4/5, context := "x",
       matchType := MatchType.snippet } : MatchRecord).matchType = .snippet ∧
    (analyze_snippet_core ex0 { title := "Bob", snippet := "x" }
        { name := "bob" }).privacyScore ≤ 70 := by
  have h := C4_snippet_fallback ex0 { title := "Bob", snippet := "x" }
    { name := "bob" }
  have hname := h.2.2.1
    { value := "bob", confidence := 4/5, context := "x", matchType := .snippet }
    (by decide)
  exact ⟨by decide, hname.1, hname.2, h.2.2.2.2.2.1⟩

/-! ### Claim C5 -/

/-- C5: evaluation of `_find_matches` at the failing inputs.  For the address
`"Main St"` (two components, only `"Main"` longer than 2 characters):
against a text containing neither component the guard `len(address_parts) >= 2`
is still taken and `found_parts[0]` raises `IndexError`; against a text
containing only the single component `"Main"` a partial record with
confidence 1/2 is emitted even though just one component matched — both
contradicting the specification's "require ≥ 2 components present" (and the
source's own comment `# At least 2 parts found`).  The exact-substring path
behaves as specified. -/
theorem C5_code_eval :
    find_matches ex0 "qq" { address := "Main St" } = .error () ∧
    (match find_matches ex0 "main x" { address := "Main St" } with
     | .ok m => m.address
     | .error _ => none) =
      some { value := "Main St", confidence := 1/2, context := "",
             matchType := .partialT, matchedParts := ["Main"] } ∧
    (match find_matches ex0 "main st x" { address := "Main St" } with
     | .ok m => m.address
     | .error _ => none) =
      some { value := "Main St", confidence := 1, context := "",
             matchType := .exact } := by
  refine ⟨rfl, by decide, by decide⟩

/-! ### Claim C10 -/

theorem insertByScoreDesc_perm (x : Detailed) (l : List Detailed) :
    (insertByScoreDesc x l).Perm (x :: l) := by
  induction l with
  | nil => exact .refl _
  | cons y ys ih =>
    unfold insertByScoreDesc
    split_ifs with h
    · exact .refl _
    · exact (ih.cons y).trans (List.Perm.swap x y ys)

theorem sortByScoreDesc_perm (l : List Detailed) : (sortByScoreDesc l).Perm l := by
  induction l with
  | nil => exact .refl _
  | cons x xs ih =>
    exact (insertByScoreDesc_perm x (sortByScoreDesc xs)).trans (ih.cons x)

theorem fetchFrom_exn (mx : Nat) (l : List Nat) :
    (fetchFrom (fun _ => .exn) mx l).body = none ∧
    (fetchFrom (fun _ => .exn) mx l).tried = l := by
  induction l with
  | nil => exact ⟨rfl, rfl⟩
  | cons a t ih => simp [fetchFrom, ih.1, ih.2]

/-- In the shipped module every candidate takes the snippet path, because the
fetch always returns `None` (the `NameError` on `aiohttp` is caught and
retried until the loop falls through). -/
theorem candidateStep_eq (env : Env) (u : UserInfo) (c : Candidate) :
    candidateStep env u c =
      match analyze_snippet env.ex c u with
      | .ok a => some (mergeSnippet c a)
      | .error _ => none := by
  unfold candidateStep
  rw [show (fetch_with_retry_actual c.url 2).body = none from
    (fetchFrom_exn 2 (List.range 2)).1]

/-- C10: `privacy_scanner.py` imports neither `aiohttp` nor `re`; hence every
fetch attempt raises `NameError` internally and `_fetch_with_retry` runs all
its attempts and returns `None` for every URL, so the full-page extraction
path is unreachable and every retained candidate goes through the snippet
fallback; and for a profile with a non-empty phone the fallback itself raises
`NameError`, which the per-candidate handler catches, dropping every
candidate from the detailed results. -/
theorem C10_missing_imports :
    ("aiohttp" ∉ privacyScannerImports ∧ "re" ∉ privacyScannerImports) ∧
    (∀ (url : String) (mx : Nat), (fetch_with_retry_actual url mx).body = none ∧
      (fetch_with_retry_actual url mx).tried = List.range mx) ∧
    (∀ (ex : Extractors) (r : Candidate) (u : UserInfo), u.phone ≠ "" →
      analyze_snippet ex r u = .error ()) ∧
    (∀ (ex : Extractors) (r : Candidate) (u : UserInfo), u.phone = "" →
      analyze_snippet ex r u = .ok (analyze_snippet_core ex r u)) ∧
    (∀ (env : Env) (u : UserInfo) (mx : Nat), u.phone ≠ "" →
      (scanModel env u mx).detailedResults = []) ∧
    (∀ (env : Env) (u : UserInfo) (mx : Nat) (d : Detailed),
      d ∈ (scanModel env u mx).detailedResults →
      ∃ c a, c ∈ (deduplicate_results (gatherResults env u)).take mx ∧
        analyze_snippet env.ex c u = .ok a ∧ d = mergeSnippet c a) := by
  refine ⟨⟨by decide, by decide⟩, ?_, ?_, ?_, ?_, ?_⟩
  · intro url mx
    exact ⟨(fetchFrom_exn mx (List.range mx)).1, (fetchFrom_exn mx (List.range mx)).2⟩
  · intro ex r u h
    simp [analyze_snippet, h]
  · intro ex r u h
    simp [analyze_snippet, h]
  · intro env u mx h
    have hstep : ∀ c, candidateStep env u c = none := by
      intro c
      rw [candidateStep_eq]
      simp [analyze_snippet, h]
    have hnil : ((deduplicate_results (gatherResults env u)).take mx).filterMap
        (candidateStep env u) = [] := by
      simp [List.filterMap_eq_nil_iff]
      intro c _
      exact hstep c
    show sortByScoreDesc (((deduplicate_results (gatherResults env u)).take mx).filterMap
      (candidateStep env u)) = []
    rw [hnil]
    rfl
  · intro env u mx d hd
    have hperm := sortByScoreDesc_perm
      (((deduplicate_results (gatherResults env u)).take mx).filterMap (candidateStep env u))
    have hd' : d ∈ ((deduplicate_results (gatherResults env u)).take mx).filterMap
        (candidateStep env u) := hperm.mem_iff.mp hd
    obtain ⟨c, hc, heq⟩ := List.mem_filterMap.mp hd'
    rw [candidateStep_eq] at heq
    cases h : analyze_snippet env.ex c u with
    | error e => rw [h] at heq; exact absurd heq (by simp)
    | ok a =>
      rw [h] at heq
      refine ⟨c, a, hc, h, ?_⟩
      cases heq
      rfl

/-- C10 witness: with a phone-bearing profile the snippet fallback errors and
a scan retains no detailed result; and a concrete fetch returns `None`. -/
theorem C10_witness :
    analyze_snippet ex0 {} { phone := "5" } = .error () ∧
    (scanModel env0 { phone := "5" } 20).detailedResults = [] ∧
    (fetch_with_retry_actual "http://x" 2).body = none := by
  refine ⟨C10_missing_imports.2.2.1 ex0 {} _ (by decide),
          C10_missing_imports.2.2.2.2.1 env0 _ 20 (by decide),
          (C10_missing_imports.2.1 "http://x" 2).1⟩

/-! ### Claim C1 -/

/-- C1 counterexample: `scan` performs no profile validation.  On the
all-empty profile it does not raise — it generates zero queries and returns a
normal report with zero results and an empty detailed list. -/
theorem C1_counterexample :
    generate_search_queries emptyUser = [] ∧
    (scanModel env0 emptyUser 20).totalResultsFound = 0 ∧
    (scanModel env0 emptyUser 20).detailedResults = [] ∧
    (scanModel env0 emptyUser 20).summary.overallRiskLevel = .low := by
  refine ⟨rfl, by decide, by decide, by decide⟩

/-- C1 amended: `scan` validates nothing and always completes with a report:
it echoes the profile, reports the deduplicated result count, and summarises
exactly its own detailed list (per-candidate failures are swallowed by the
handler inside the model's `candidateStep`, provider failures are isolated
upstream of the search oracle).  For an all-empty profile no queries and no
results are produced and the report is the zero report, not an error. -/
theorem C1_amended_scan_always_returns (env : Env) (u : UserInfo) (mx : Nat) :
    (scanModel env u mx).userInfo = u ∧
    (scanModel env u mx).totalResultsFound =
      (deduplicate_results (gatherResults env u)).length ∧
    (scanModel env u mx).summary =
      generate_summary (scanModel env u mx).detailedResults u ∧
    (u.name = "" → u.email = "" → u.phone = "" → u.address = "" →
      generate_search_queries u = [] ∧ gatherResults env u = [] ∧
      (scanModel env u mx).totalResultsFound = 0 ∧
      (scanModel env u mx).detailedResults = []) := by
  refine ⟨rfl, rfl, rfl, ?_⟩
  intro h1 h2 h3 h4
  have hq : generate_search_queries u = [] := by
    simp [generate_search_queries, h1, h2, h3, h4]
  have hg : gatherResults env u = [] := by
    simp [gatherResults, hq]
  refine ⟨hq, hg, ?_, ?_⟩
  · show (deduplicate_results (gatherResults env u)).length = 0
    rw [hg]
    rfl
  · show sortByScoreDesc (((deduplicate_results (gatherResults env u)).take
      mx).filterMap (candidateStep env u)) = []
    rw [hg]
    simp [deduplicate_results, dedupAux, sortByScoreDesc]

/-- C1 witness: the amended statement evaluated on the all-empty profile in a
trivial environment. -/
theorem C1_witness :
    (scanModel env0 emptyUser 20).userInfo = emptyUser ∧
    (scanModel env0 emptyUser 20).totalResultsFound = 0 ∧
    (scanModel env0 emptyUser 20).detailedResults = [] := by
  have h := C1_amended_scan_always_returns env0 emptyUser 20
  exact ⟨h.1, (h.2.2.2 rfl rfl rfl rfl).2.2.1, (h.2.2.2 rfl rfl rfl rfl).2.2.2⟩

/-! ### Claim C6 -/

theorem dedupAux_sublist (seen : List String) (l : List Candidate) :
    (dedupAux seen l).Sublist l := by
  induction l generalizing seen with
  | nil => simp [dedupAux]
  | cons r rest ih =>
    unfold dedupAux
    dsimp only
    split_ifs with h
    · exact (ih _).cons₂ r
    · exact (ih seen).cons r

theorem dedupAux_mem (seen : List String) (l : List Candidate) :
    ∀ r ∈ dedupAux seen l, clean_url r.url ∉ seen ∧ clean_url r.url ≠ "" := by
  induction l generalizing seen with
  | nil => simp [dedupAux]
  | cons x t ih =>
    intro r hr
    unfold dedupAux at hr
    dsimp only at hr
    split_ifs at hr with h
    · cases List.mem_cons.mp hr with
      | inl heq => subst heq; exact ⟨h.2, h.1⟩
      | inr hmem =>
        have hrec := ih _ r hmem
        exact ⟨fun hseen => hrec.1 (List.mem_cons_of_mem _ hseen), hrec.2⟩
    · exact ih seen r hr

theorem dedupAux_pairwise (seen : List String) (l : List Candidate) :
    (dedupAux seen l).Pairwise (fun a b => clean_url a.url ≠ clean_url b.url) := by
  induction l generalizing seen with
  | nil => simp [dedupAux]
  | cons x t ih =>
    unfold dedupAux
    dsimp only
    split_ifs with h
    · refine List.Pairwise.cons ?_ (ih _)
      intro b hb hEq
      exact (dedupAux_mem _ _ b hb).1 (hEq ▸ List.mem_cons_self _ _)
    · exact ih seen

theorem dedupAux_first (seen : List String) (l : List Candidate) :
    ∀ r ∈ dedupAux seen l,
      l.find? (fun x => clean_url x.url = clean_url r.url) = some r := by
  induction l generalizing seen with
  | nil => simp [dedupAux]
  | cons x t ih =>
    intro r hr
    unfold dedupAux at hr
    dsimp only at hr
    split_ifs at hr with h
    · cases List.mem_cons.mp hr with
      | inl heq =>
        subst heq
        rw [List.find?_cons_of_pos _ (by simp)]
      | inr hmem =>
        have hne : clean_url x.url ≠ clean_url r.url := by
          intro hEq
          exact (dedupAux_mem _ _ r hmem).1 (hEq ▸ List.mem_cons_self _ _)
        rw [List.find?_cons_of_neg _ (by simpa using hne)]
        exact ih _ r hmem
    · have hx : clean_url x.url = "" ∨ clean_url x.url ∈ seen := by
        by_contra hc
        push_neg at hc
        exact h ⟨hc.1, hc.2⟩
      have hmem := dedupAux_mem seen t r hr
      have hne : clean_url x.url ≠ clean_url r.url := by
        intro hEq
        cases hx with
        | inl h0 => exact hmem.2 (hEq ▸ h0)
        | inr hs => exact hmem.1 (hEq ▸ hs)
      rw [List.find?_cons_of_neg _ (by simpa using hne)]
      exact ih seen r hr

theorem candidateStep_url (env : Env) (u : UserInfo) (c : Candidate)
    (d : Detailed) (h : candidateStep env u c = some d) : d.url = c.url := by
  rw [candidateStep_eq] at h
  cases ha : analyze_snippet env.ex c u with
  | error e => rw [ha] at h; exact absurd h (by simp)
  | ok a =>
    rw [ha] at h
    cases h
    rfl

/-- C6: after `_deduplicate_results` the retained candidates have pairwise
distinct normalized URLs (`clean_url`: scheme + netloc + path, query
stripped), the retained list is a sublist of the input in which each kept
element is the first occurrence of its normalized URL, two candidates with
the same non-empty normalized URL collapse to the first of them, URLs
differing only in their query string have equal normalized forms, and the
pairwise-distinct invariant carries over to the final detailed-result list of
every scan. -/
theorem C6_dedup_invariant (results : List Candidate) :
    (deduplicate_results results).Pairwise
      (fun a b => clean_url a.url ≠ clean_url b.url) ∧
    (deduplicate_results results).Sublist results ∧
    (∀ r ∈ deduplicate_results results,
      results.find? (fun x => clean_url x.url = clean_url r.url) = some r) ∧
    (∀ a b : Candidate, clean_url a.url = clean_url b.url →
      clean_url a.url ≠ "" → deduplicate_results [a, b] = [a]) ∧
    clean_url "https://example.com/profile?id=1" =
      clean_url "https://example.com/profile?ref=2" ∧
    (∀ (env : Env) (u : UserInfo) (mx : Nat),
      ((scanModel env u mx).detailedResults).Pairwise
        (fun a b => clean_url a.url ≠ clean_url b.url)) := by
  refine ⟨dedupAux_pairwise [] results, dedupAux_sublist [] results,
    dedupAux_first [] results, ?_, by decide, ?_⟩
  · intro a b hEq hne
    have hb : clean_url b.url ∈ [clean_url a.url] := by simp [hEq]
    simp [deduplicate_results, dedupAux, hne, hb]
    exact fun _ => hEq.symm
  · intro env u mx
    have h1 := dedupAux_pairwise [] (gatherResults env u)
    have h2 : ((deduplicate_results (gatherResults env u)).take mx).Pairwise
        (fun a b => clean_url a.url ≠ clean_url b.url) :=
      h1.sublist (List.take_sublist mx _)
    have h3 : (((deduplicate_results (gatherResults env u)).take mx).filterMap
        (candidateStep env u)).Pairwise
        (fun a b => clean_url a.url ≠ clean_url b.url) := by
      rw [List.pairwise_filterMap]
      refine h2.imp ?_
      intro c c' hne d hd d' hd'
      rw [candidateStep_url env u c d hd, candidateStep_url env u c' d' hd']
      exact hne
    exact (List.Perm.pairwise_iff (fun h hEq => h hEq.symm)
      (sortByScoreDesc_perm _)).mpr h3

/-- C6 witness: two concrete candidates whose URLs differ only by query
string collapse to the first. -/
theorem C6_witness :
    deduplicate_results [{ url := "https://example.com/profile?id=1" },
      { url := "https://example.com/profile?ref=2" }] =
      [{ url := "https://example.com/profile?id=1" }] := by
  exact (C6_dedup_invariant []).2.2.2.1
    { url := "https://example.com/profile?id=1" }
    { url := "https://example.com/profile?ref=2" }
    (by decide) (by decide)
